import Mathlib

/-!
# Account imports of the NATS CLI (`cli/auth_account_imports.go`)

A shallow embedding of the five import actions of `authAccountCommand`
(add, ls, edit, rm and the lookup they share) over an explicit model of the
authorization builder library they call.

* An `ab.Import` value is a record of its attributes together with its dynamic
  type (`Kind`): a type assertion or type switch in the Go code is a test on
  `Import.kind`.
* An account holds two ordered collections, `Imports().Streams()` and
  `Imports().Services()`.
* Every action is a function from the state of the authorization context
  (`Auth`) to the state after the call and the Go `error` it returns
  (`Res Unit`, with a third outcome for a run-time panic).
* Whether a call into the library, the terminal or the output stream fails is
  not decided by this file: each such decision is a field of `Lib`.
-/

namespace NatsCli

/-- Dynamic type of an `ab.Import` value: `ab.StreamImport` or `ab.ServiceImport`. -/
inductive Kind where
  | stream
  | service
deriving DecidableEq, Repr

/-- Attributes of an import, as the getters of `ab.Import` read them. -/
structure ImportData where
  name : String
  account : String
  subject : String
  localSubject : String
  token : String
  share : Bool
  allowTrace : Bool
deriving DecidableEq, Repr

/-- An `ab.Import` interface value: the dynamic type and the attributes. -/
structure Import where
  kind : Kind
  data : ImportData
deriving DecidableEq, Repr

/-- Getter `Name()`. -/
def Import.Name (i : Import) : String := i.data.name

/-- Getter `Account()`. -/
def Import.Account (i : Import) : String := i.data.account

/-- Getter `Subject()`: the remote subject. -/
def Import.Subject (i : Import) : String := i.data.subject

/-- Getter `LocalSubject()`. -/
def Import.LocalSubject (i : Import) : String := i.data.localSubject

/-- Getter `Token()`. -/
def Import.Token (i : Import) : String := i.data.token

/-- Getter `IsShareConnectionInfo()`. -/
def Import.IsShareConnectionInfo (i : Import) : Bool := i.data.share

/-- Getter `AllowTracing()` of `ab.StreamImport`. -/
def Import.AllowTracing (i : Import) : Bool := i.data.allowTrace

/-- An `ab.Account`: its name, its public key (`Subject()`) and the two
collections of `Imports()`, each in the order `List()` returns it. -/
structure Account where
  name : String
  subject : String
  streams : List ImportData
  services : List ImportData
deriving DecidableEq, Repr

/-- The list `account.Imports().Streams().List()`. -/
def Account.StreamsList (a : Account) : List Import :=
  a.streams.map (fun d => Import.mk Kind.stream d)

/-- The list `account.Imports().Services().List()`. -/
def Account.ServicesList (a : Account) : List Import :=
  a.services.map (fun d => Import.mk Kind.service d)

/-- A mutating call received by the account held in the authorization context:
a setter on one of its imports, `AddWithConfig`, `Delete`, or `Commit`. -/
inductive Call where
  | setAllowTracing (k : Kind) (idx : Nat) (v : Bool)
  | setShareConnectionInfo (k : Kind) (idx : Nat) (v : Bool)
  | setLocalSubject (k : Kind) (idx : Nat) (v : String)
  | addWithConfig (i : Import)
  | delete (k : Kind) (subject : String)
  | commit
deriving DecidableEq, Repr

/-- A cell of a table or column view: `AddRow` receives strings and booleans. -/
inductive Cell where
  | str (s : String)
  | bool (b : Bool)
deriving DecidableEq, Repr

/-- What an action writes to standard output. -/
inductive Printed where
  | line (s : String)
  | table (title : String) (headers : List String) (rows : List (List Cell))
  | columns (title : String) (section_ : String) (rows : List (String × Cell))
deriving DecidableEq, Repr

/-- State of one invocation: the account as staged in memory, the account as
last committed, the mutating calls the account received, and standard output. -/
structure Auth where
  acct : Account
  committed : Account
  calls : List Call
  out : List Printed
deriving DecidableEq, Repr

/-- Result of a Go call that returns `(T, error)`, or panics. -/
inductive Res (α : Type) where
  | ok (a : α)
  | error (msg : String)
  | panic
deriving DecidableEq, Repr

/-- The flags of `authAccountCommand` that the import actions read. -/
structure authAccountCommand where
  isService : Bool
  importName : String
  importAccount : String
  subject : String
  localSubject : String
  activationToken : String
  share : Bool
  shareIsSet : Bool
  allowTrace : Bool
  allowTraceIsSet : Bool
  force : Bool
deriving DecidableEq, Repr

/-- Decisions taken outside this file: for each call that can fail, the error it
returns (`none` for success); the answer of the confirmation prompt; and the
`%q` verb of `fmt`. -/
structure Lib where
  selectAccountErr : Option String
  newImportErr : Kind → String → String → String → Option String
  setAccountErr : Import → String → Option String
  setLocalSubjectErr : Import → String → Option String
  setTokenErr : Import → String → Option String
  setShareConnectionInfoErr : Import → Bool → Option String
  setAllowTracingErr : Import → Bool → Option String
  addWithConfigErr : Account → Import → Option String
  deleteErr : Account → Kind → String → Option String
  commitErr : Account → Option String
  renderErr : Import → Option String
  writeErr : Option String
  askConfirmation : String → Bool → Except String Bool
  quote : String → String

/-! ## The library calls -/

/-- Modelled from the spec: the factory `ab.NewStreamImport(name, account, subject)`
of the authorization builder. A new import has the given name, source account
and remote subject, and nothing else set. -/
def NewStreamImport (L : Lib) (name account subject : String) : Except String Import :=
  match L.newImportErr Kind.stream name account subject with
  | some e => Except.error e
  | none => Except.ok ⟨Kind.stream, ⟨name, account, subject, "", "", false, false⟩⟩

/-- Modelled from the spec: the factory `ab.NewServiceImport(name, account, subject)`. -/
def NewServiceImport (L : Lib) (name account subject : String) : Except String Import :=
  match L.newImportErr Kind.service name account subject with
  | some e => Except.error e
  | none => Except.ok ⟨Kind.service, ⟨name, account, subject, "", "", false, false⟩⟩

/-- Modelled from the spec: setter `SetAccount` on an import that is not yet in
an account; a rejected value is not applied. -/
def Import.SetAccount (L : Lib) (i : Import) (a : String) : Except String Import :=
  match L.setAccountErr i a with
  | some e => Except.error e
  | none => Except.ok { i with data := { i.data with account := a } }

/-- Modelled from the spec: setter `SetLocalSubject`. -/
def Import.SetLocalSubject (L : Lib) (i : Import) (s : String) : Except String Import :=
  match L.setLocalSubjectErr i s with
  | some e => Except.error e
  | none => Except.ok { i with data := { i.data with localSubject := s } }

/-- Modelled from the spec: setter `SetToken`. -/
def Import.SetToken (L : Lib) (i : Import) (t : String) : Except String Import :=
  match L.setTokenErr i t with
  | some e => Except.error e
  | none => Except.ok { i with data := { i.data with token := t } }

/-- Modelled from the spec: setter `SetShareConnectionInfo`. -/
def Import.SetShareConnectionInfo (L : Lib) (i : Import) (t : Bool) : Except String Import :=
  match L.setShareConnectionInfoErr i t with
  | some e => Except.error e
  | none => Except.ok { i with data := { i.data with share := t } }

/-- Modelled from the spec: setter `SetAllowTracing` of `ab.StreamImport`. -/
def Import.SetAllowTracing (L : Lib) (i : Import) (t : Bool) : Except String Import :=
  match L.setAllowTracingErr i t with
  | some e => Except.error e
  | none => Except.ok { i with data := { i.data with allowTrace := t } }

/-- The type assertion `imp.(ab.StreamImport)`: it holds exactly for an import
whose dynamic type is the stream import. -/
def Import.asStreamImport (i : Import) : Option Import :=
  match i.kind with
  | Kind.stream => some i
  | Kind.service => none

/-- Modelled from the spec: `Imports().Streams().AddWithConfig(i)`; the import
is appended to the stream collection. -/
def StreamsAddWithConfig (L : Lib) (st : Auth) (i : Import) : Auth × Option String :=
  match L.addWithConfigErr st.acct i with
  | some e => ({ st with calls := st.calls ++ [Call.addWithConfig i] }, some e)
  | none =>
    ({ st with acct := { st.acct with streams := st.acct.streams ++ [i.data] },
               calls := st.calls ++ [Call.addWithConfig i] }, none)

/-- Modelled from the spec: `Imports().Services().AddWithConfig(i)`. -/
def ServicesAddWithConfig (L : Lib) (st : Auth) (i : Import) : Auth × Option String :=
  match L.addWithConfigErr st.acct i with
  | some e => ({ st with calls := st.calls ++ [Call.addWithConfig i] }, some e)
  | none =>
    ({ st with acct := { st.acct with services := st.acct.services ++ [i.data] },
               calls := st.calls ++ [Call.addWithConfig i] }, none)

/-- Modelled from the spec: `Imports().Streams().Delete(subject)`, the delete
method of the collection. The spec names the method and not its key. In the
library the key of a collection is the subject of an entry: the attribute that
the third argument of the factory sets and `Subject()` returns, which the CLI
shows as the remote subject; the local subject is another attribute, set by
`SetLocalSubject`. So the first stream entry whose `Subject()` is the argument
is deleted; when no entry matches, nothing is deleted and no error is returned
(the boolean result, which the CLI discards, tells the two apart). -/
def StreamsDelete (L : Lib) (st : Auth) (subject : String) : Auth × Option String :=
  match L.deleteErr st.acct Kind.stream subject with
  | some e => ({ st with calls := st.calls ++ [Call.delete Kind.stream subject] }, some e)
  | none =>
    ({ st with acct := { st.acct with
                 streams := st.acct.streams.eraseP (fun d => d.subject == subject) },
               calls := st.calls ++ [Call.delete Kind.stream subject] }, none)

/-- Modelled from the spec: `Imports().Services().Delete(subject)`, keyed like
`StreamsDelete`. -/
def ServicesDelete (L : Lib) (st : Auth) (subject : String) : Auth × Option String :=
  match L.deleteErr st.acct Kind.service subject with
  | some e => ({ st with calls := st.calls ++ [Call.delete Kind.service subject] }, some e)
  | none =>
    ({ st with acct := { st.acct with
                 services := st.acct.services.eraseP (fun d => d.subject == subject) },
               calls := st.calls ++ [Call.delete Kind.service subject] }, none)

/-- Modelled from the spec: `auth.Commit()`; all staged changes become the
committed account. -/
def Commit (L : Lib) (st : Auth) : Auth × Option String :=
  match L.commitErr st.acct with
  | some e => ({ st with calls := st.calls ++ [Call.commit] }, some e)
  | none => ({ st with committed := st.acct, calls := st.calls ++ [Call.commit] }, none)

/-- Replace the element at position `idx` by its image under `f`. -/
def modifyAt (f : ImportData → ImportData) : List ImportData → Nat → List ImportData
  | [], _ => []
  | d :: ds, 0 => f d :: ds
  | d :: ds, n + 1 => d :: modifyAt f ds n

/-- The collection of the account that holds the imports of kind `k`. -/
def Account.collection (a : Account) (k : Kind) : List ImportData :=
  match k with
  | Kind.stream => a.streams
  | Kind.service => a.services

/-- The account with the entry `idx` of the collection of kind `k` changed by `f`. -/
def Account.modify (a : Account) (k : Kind) (idx : Nat) (f : ImportData → ImportData) :
    Account :=
  match k with
  | Kind.stream => { a with streams := modifyAt f a.streams idx }
  | Kind.service => { a with services := modifyAt f a.services idx }

/-- The current value of the import that is entry `idx` of the collection of
kind `k`; `dflt` when there is no such entry. -/
def Account.importAt (a : Account) (k : Kind) (idx : Nat) (dflt : Import) : Import :=
  match (a.collection k).get? idx with
  | some d => ⟨k, d⟩
  | none => dflt

/-- Modelled from the spec: a setter called on an import that belongs to the
account. In Go the import value points into the account, so the setter changes
the entry in place (staged, not committed); a rejected value is not applied. -/
def boundSet (st : Auth) (k : Kind) (idx : Nat) (call : Call) (err : Option String)
    (f : ImportData → ImportData) : Auth × Option String :=
  match err with
  | some e => ({ st with calls := st.calls ++ [call] }, some e)
  | none => ({ st with acct := st.acct.modify k idx f, calls := st.calls ++ [call] }, none)

/-- The validation that the authorization builder runs in `AddWithConfig`:
sharing of connection info is a capability of service imports only, so a
stream import on which `IsShareConnectionInfo()` is set is rejected with an
error and is not added. -/
def Lib.rejectsSharingStream (L : Lib) : Prop :=
  ∀ (a : Account) (i : Import), i.kind = Kind.stream → i.data.share = true →
    L.addWithConfigErr a i ≠ none

/-! ## The actions of `auth_account_imports.go` -/

/-- Source `showImport` (lines 287-303): the key/value view of one import. -/
def showImport (L : Lib) (imp : Import) : Except String Printed :=
  let rows : List (String × Cell) :=
    [("Name", Cell.str imp.Name),
     ("Local Subject", Cell.str imp.LocalSubject),
     ("Account", Cell.str imp.Account),
     ("Remote Subject", Cell.str imp.Subject),
     ("Sharing Connection Info", Cell.bool imp.IsShareConnectionInfo)]
  let rows :=
    match imp.asStreamImport with
    | some strImport => rows ++ [("Allows Message Tracing", Cell.bool strImport.AllowTracing)]
    | none => rows
  match L.renderErr imp with
  | some e => Except.error e
  | none =>
    Except.ok (Printed.columns
      ("Import info for " ++ imp.Name ++ " importing " ++ imp.LocalSubject)
      "Configuration" rows)

/-- Source `fShowImport` (lines 277-285), with `w` standard output. -/
def fShowImport (L : Lib) (st : Auth) (exp : Import) : Auth × Res Unit :=
  match showImport L exp with
  | Except.error e => (st, Res.error e)
  | Except.ok out =>
    match L.writeErr with
    | some e => (st, Res.error e)
    | none => ({ st with out := st.out ++ [out] }, Res.ok ())

/-- Source `importAddAction` (lines 13-77). -/
def importAddAction (L : Lib) (c : authAccountCommand) (st : Auth) : Auth × Res Unit :=
  match L.selectAccountErr with
  | some e => (st, Res.error e)
  | none =>
  let acct := st.acct
  match (if c.isService then NewServiceImport L c.importName acct.subject c.subject
         else NewStreamImport L c.importAccount acct.subject c.subject) with
  | Except.error e => (st, Res.error ("could not add import: " ++ e))
  | Except.ok imp0 =>
  match imp0.SetAccount L c.importAccount with
  | Except.error e => (st, Res.error e)
  | Except.ok imp1 =>
  match (if c.localSubject = "" then imp1.SetLocalSubject L c.subject
         else imp1.SetLocalSubject L c.localSubject) with
  | Except.error e => (st, Res.error e)
  | Except.ok imp2 =>
  match (if c.activationToken ≠ "" then imp2.SetToken L c.activationToken
         else Except.ok imp2) with
  | Except.error e => (st, Res.error e)
  | Except.ok imp3 =>
  match imp3.SetShareConnectionInfo L c.share with
  | Except.error e => (st, Res.error e)
  | Except.ok imp4 =>
  match (if c.allowTrace && !c.isService then
           imp4.asStreamImport.map (fun s => s.SetShareConnectionInfo L true)
         else some (Except.ok imp4)) with
  | none => (st, Res.panic)
  | some (Except.error e) => (st, Res.error e)
  | some (Except.ok imp) =>
  match (if c.isService then some (ServicesAddWithConfig L st imp)
         else imp.asStreamImport.map (fun s => StreamsAddWithConfig L st s)) with
  | none => (st, Res.panic)
  | some (st1, some e) => (st1, Res.error e)
  | some (st1, none) =>
  match Commit L st1 with
  | (st2, some e) => (st2, Res.error ("commit failed: " ++ e))
  | (st2, none) => fShowImport L st2 imp

/-- Source `findImport` (lines 114-127). -/
def findImport (account : Account) (localSubject : String) : Option Import :=
  match account.StreamsList.find? (fun imp => imp.LocalSubject == localSubject) with
  | some imp => some imp
  | none => account.ServicesList.find? (fun imp => imp.LocalSubject == localSubject)

/-- The `less` function that `importsBySubject` hands to `sort.Slice`: Go compares
strings byte by byte, which on UTF-8 text is the order of the code points. -/
def lessBySubject (a b : Import) : Bool := decide (a.Subject < b.Subject)

/-- The call `sort.Slice(ret, less)`, as an insertion sort driven by `less`: an
element stays in front of another unless `less` puts the other one first. Go does
not fix the relative order of elements that `less` does not separate. -/
def sortSlice (less : Import → Import → Bool) (ret : List Import) : List Import :=
  ret.insertionSort (fun a b => less b a = false)

/-- Source `importsBySubject` (lines 129-144). -/
def importsBySubject (acct : Account) : List Import :=
  sortSlice lessBySubject (acct.StreamsList ++ acct.ServicesList)

/-- The row that the loop body of `importLsAction` (lines 96-106) adds for one
element of the sorted imports. -/
def importRow (i : Import) : List Cell :=
  let ls := if i.LocalSubject ≠ "" then i.LocalSubject else i.Subject
  match i.kind with
  | Kind.stream =>
    [Cell.str i.Name, Cell.str "Stream", Cell.str ls, Cell.str i.Subject,
     Cell.bool i.AllowTracing, Cell.bool i.IsShareConnectionInfo]
  | Kind.service =>
    [Cell.str i.Name, Cell.str "Service", Cell.str ls, Cell.str i.Subject,
     Cell.str "", Cell.bool i.IsShareConnectionInfo]

/-- The headers of the table of `importLsAction`. -/
def importHeaders : List String :=
  ["Name", "Kind", "Local Subject", "Remote Subject", "Allows Tracing",
   "Sharing Connection Info"]

/-- Source `importLsAction` (lines 79-112). -/
def importLsAction (L : Lib) (st : Auth) : Auth × Res Unit :=
  match L.selectAccountErr with
  | some e => (st, Res.error e)
  | none =>
  let acct := st.acct
  if acct.ServicesList.length = 0 ∧ acct.StreamsList.length = 0 then
    ({ st with out := st.out ++ [Printed.line "No Imports defined"] }, Res.ok ())
  else
    let imports := importsBySubject acct
    ({ st with out := st.out ++
        [Printed.table ("Imports for account " ++ acct.name) importHeaders
          (imports.map importRow)] }, Res.ok ())

/-- The table rows of a printed item (a line of text or a column view has none). -/
def Printed.rows : Printed → List (List Cell)
  | Printed.table _ _ rows => rows
  | _ => []

/-- The position, in its collection, of the import that `findImport` returned
for `localSubject`: the first entry with that local subject. In Go the returned
value itself points at this entry. -/
def boundIndex (account : Account) (imp : Import) (localSubject : String) : Nat :=
  (account.collection imp.kind).findIdx (fun d => d.localSubject == localSubject)

/-- Source `importEditAction` (lines 181-224). -/
def importEditAction (L : Lib) (c : authAccountCommand) (st : Auth) : Auth × Res Unit :=
  match L.selectAccountErr with
  | some e => (st, Res.error e)
  | none =>
  match findImport st.acct c.subject with
  | none =>
    (st, Res.error ("import for local subject " ++ L.quote c.subject ++ " not found"))
  | some imp =>
  let idx := boundIndex st.acct imp c.subject
  match (if c.allowTraceIsSet then
           match imp.asStreamImport with
           | none => (st, some "service imports cannot allow tracing")
           | some streamImport =>
             boundSet st streamImport.kind idx
               (Call.setAllowTracing streamImport.kind idx c.allowTrace)
               (L.setAllowTracingErr streamImport c.allowTrace)
               (fun d => { d with allowTrace := c.allowTrace })
         else (st, none)) with
  | (st1, some e) => (st1, Res.error e)
  | (st1, none) =>
  match (if c.shareIsSet then
           boundSet st1 imp.kind idx (Call.setShareConnectionInfo imp.kind idx c.share)
             (L.setShareConnectionInfoErr (st1.acct.importAt imp.kind idx imp) c.share)
             (fun d => { d with share := c.share })
         else (st1, none)) with
  | (st2, some e) => (st2, Res.error e)
  | (st2, none) =>
  match (if c.localSubject ≠ "" then
           boundSet st2 imp.kind idx (Call.setLocalSubject imp.kind idx c.localSubject)
             (L.setLocalSubjectErr (st2.acct.importAt imp.kind idx imp) c.localSubject)
             (fun d => { d with localSubject := c.localSubject })
         else (st2, none)) with
  | (st3, some e) => (st3, Res.error e)
  | (st3, none) =>
  match Commit L st3 with
  | (st4, some e) => (st4, Res.error e)
  | (st4, none) => fShowImport L st4 (st4.acct.importAt imp.kind idx imp)

/-- Source `importRmAction` (lines 226-261). -/
def importRmAction (L : Lib) (c : authAccountCommand) (st : Auth) : Auth × Res Unit :=
  match L.selectAccountErr with
  | some e => (st, Res.error e)
  | none =>
  match findImport st.acct c.subject with
  | none => (st, Res.error ("subject " ++ L.quote c.subject ++ " is not imported"))
  | some imp =>
  match (if !c.force then
           L.askConfirmation ("Really remove the " ++ imp.LocalSubject ++ " Import") false
         else Except.ok true) with
  | Except.error e => (st, Res.error e)
  | Except.ok false => (st, Res.ok ())
  | Except.ok true =>
  match (match imp.kind with
         | Kind.stream =>
           let r := StreamsDelete L st c.subject
           ({ r.1 with out := r.1.out ++
               [Printed.line ("Removing Stream Import for local Subject " ++
                 L.quote imp.LocalSubject ++ " imported from Account " ++
                 L.quote imp.Account ++ "\n")] }, r.2)
         | Kind.service =>
           let r := ServicesDelete L st c.subject
           ({ r.1 with out := r.1.out ++
               [Printed.line ("Removing Service Import for local subject " ++
                 L.quote imp.LocalSubject ++ " imported from Account " ++
                 L.quote imp.Account ++ "\n")] }, r.2)) with
  | (st1, some e) => (st1, Res.error e)
  | (st1, none) =>
  match Commit L st1 with
  | (st2, some e) => (st2, Res.error e)
  | (st2, none) => (st2, Res.ok ())

/-! ## Concrete inputs used by the examples -/

/-- A library that accepts every call but one: like the authorization builder,
whose validation allows sharing of connection info on service imports only, its
`AddWithConfig` rejects a stream import that shares connection info. The
confirmation prompt is answered no, and `%q` wraps its argument in double
quotes. -/
def okLib : Lib where
  selectAccountErr := none
  newImportErr := fun _ _ _ _ => none
  setAccountErr := fun _ _ => none
  setLocalSubjectErr := fun _ _ => none
  setTokenErr := fun _ _ => none
  setShareConnectionInfoErr := fun _ _ => none
  setAllowTracingErr := fun _ _ => none
  addWithConfigErr := fun _ i =>
    if i.kind = Kind.stream ∧ i.data.share = true then
      some "sharing information is only valid for services"
    else none
  deleteErr := fun _ _ _ => none
  commitErr := fun _ => none
  renderErr := fun _ => none
  writeErr := none
  askConfirmation := fun _ _ => Except.ok false
  quote := fun s => "\"" ++ s ++ "\""

/-- An account without imports. -/
def emptyAccount : Account := ⟨"acme", "ACME", [], []⟩

/-- The state of an invocation on `a` with nothing staged and nothing printed. -/
def freshAuth (a : Account) : Auth := ⟨a, a, [], []⟩

/-- The command `import add orders A orders.>` of the scenario: a stream import
named orders from account A, no local subject, no sharing, no tracing. -/
def ordersCmd : authAccountCommand where
  isService := false
  importName := "orders"
  importAccount := "A"
  subject := "orders.>"
  localSubject := ""
  activationToken := ""
  share := false
  shareIsSet := false
  allowTrace := false
  allowTraceIsSet := false
  force := false

/-- The import that a successful `importAddAction` stages, read off lines 19-60:
what the factory and the setters leave in each attribute. -/
def addedImport (c : authAccountCommand) : Import :=
  ⟨if c.isService then Kind.service else Kind.stream,
   ⟨if c.isService then c.importName else c.importAccount,
    c.importAccount,
    c.subject,
    if c.localSubject = "" then c.subject else c.localSubject,
    c.activationToken,
    if c.allowTrace && !c.isService then true else c.share,
    false⟩⟩

/-- The account after `AddWithConfig` appended `i` to the collection of its kind. -/
def Account.withImport (a : Account) (i : Import) : Account :=
  match i.kind with
  | Kind.stream => { a with streams := a.streams ++ [i.data] }
  | Kind.service => { a with services := a.services ++ [i.data] }

/-- A service import added without a local subject. -/
def billingCmd : authAccountCommand :=
  { ordersCmd with isService := true, importName := "billing", subject := "billing.req" }

/-- The scenario command with tracing requested: `--allow-trace` on a stream import. -/
def traceCmd : authAccountCommand := { ordersCmd with allowTrace := true }

/-- An account with a stream import and a service import under different local
subjects. -/
def mixedAccount : Account :=
  ⟨"acme", "ACME",
   [⟨"orders", "A", "orders.>", "local.orders", "", false, false⟩],
   [⟨"billing", "B", "billing.req", "local.billing", "", false, false⟩]⟩

/-- A service import added under the local subject `local.billing2`. -/
def billing2Cmd : authAccountCommand :=
  { billingCmd with localSubject := "local.billing2" }

/-- A stream import added under the local subject that the service import of
`mixedAccount` already has: the new import is scanned first. -/
def ordersOverBillingCmd : authAccountCommand :=
  { ordersCmd with localSubject := "local.billing" }

/-- A service import added under the local subject that the stream import of
`mixedAccount` already has. -/
def shadowedCmd : authAccountCommand :=
  { billingCmd with localSubject := "local.orders" }

/-- An edit of the service import of `mixedAccount` that asks for tracing,
sharing and a new local subject at once. -/
def editBillingCmd : authAccountCommand where
  isService := false
  importName := ""
  importAccount := ""
  subject := "local.billing"
  localSubject := "local.renamed"
  activationToken := ""
  share := true
  shareIsSet := true
  allowTrace := true
  allowTraceIsSet := true
  force := false

/-- The command `import rm local.orders`, without `--force`. -/
def rmOrdersCmd : authAccountCommand := { ordersCmd with subject := "local.orders" }

/-- The command `import rm local.orders --force`. -/
def rmOrdersForceCmd : authAccountCommand := { rmOrdersCmd with force := true }

/-- An account with two stream imports: the local subject of the first is the
remote subject of the second. -/
def chainedAccount : Account :=
  ⟨"acme", "ACME",
   [⟨"first", "A", "a.>", "b.>", "", false, false⟩,
    ⟨"second", "B", "b.>", "c.>", "", false, false⟩],
   []⟩

/-! ## What a successful call of the library returns -/

theorem NewStreamImport_ok_iff (L : Lib) (n a s : String) (j : Import) :
    NewStreamImport L n a s = Except.ok j ↔
      L.newImportErr Kind.stream n a s = none ∧
      j = ⟨Kind.stream, ⟨n, a, s, "", "", false, false⟩⟩ := by
  cases h : L.newImportErr Kind.stream n a s <;> simp [NewStreamImport, h, eq_comm]

theorem NewServiceImport_ok_iff (L : Lib) (n a s : String) (j : Import) :
    NewServiceImport L n a s = Except.ok j ↔
      L.newImportErr Kind.service n a s = none ∧
      j = ⟨Kind.service, ⟨n, a, s, "", "", false, false⟩⟩ := by
  cases h : L.newImportErr Kind.service n a s <;> simp [NewServiceImport, h, eq_comm]

theorem SetAccount_ok_iff (L : Lib) (i j : Import) (a : String) :
    i.SetAccount L a = Except.ok j ↔
      L.setAccountErr i a = none ∧ j = { i with data := { i.data with account := a } } := by
  cases h : L.setAccountErr i a <;> simp [Import.SetAccount, h, eq_comm]

theorem SetLocalSubject_ok_iff (L : Lib) (i j : Import) (a : String) :
    i.SetLocalSubject L a = Except.ok j ↔
      L.setLocalSubjectErr i a = none ∧
      j = { i with data := { i.data with localSubject := a } } := by
  cases h : L.setLocalSubjectErr i a <;> simp [Import.SetLocalSubject, h, eq_comm]

theorem SetToken_ok_iff (L : Lib) (i j : Import) (a : String) :
    i.SetToken L a = Except.ok j ↔
      L.setTokenErr i a = none ∧ j = { i with data := { i.data with token := a } } := by
  cases h : L.setTokenErr i a <;> simp [Import.SetToken, h, eq_comm]

theorem SetShareConnectionInfo_ok_iff (L : Lib) (i j : Import) (a : Bool) :
    i.SetShareConnectionInfo L a = Except.ok j ↔
      L.setShareConnectionInfoErr i a = none ∧
      j = { i with data := { i.data with share := a } } := by
  cases h : L.setShareConnectionInfoErr i a <;> simp [Import.SetShareConnectionInfo, h, eq_comm]

theorem ServicesAddWithConfig_ok_iff (L : Lib) (st st1 : Auth) (i : Import) :
    ServicesAddWithConfig L st i = (st1, none) ↔
      L.addWithConfigErr st.acct i = none ∧
      st1 = { st with acct := { st.acct with services := st.acct.services ++ [i.data] },
                      calls := st.calls ++ [Call.addWithConfig i] } := by
  cases h : L.addWithConfigErr st.acct i <;> simp [ServicesAddWithConfig, h, eq_comm]

theorem StreamsAddWithConfig_ok_iff (L : Lib) (st st1 : Auth) (i : Import) :
    StreamsAddWithConfig L st i = (st1, none) ↔
      L.addWithConfigErr st.acct i = none ∧
      st1 = { st with acct := { st.acct with streams := st.acct.streams ++ [i.data] },
                      calls := st.calls ++ [Call.addWithConfig i] } := by
  cases h : L.addWithConfigErr st.acct i <;> simp [StreamsAddWithConfig, h, eq_comm]

theorem Commit_ok_iff (L : Lib) (st st1 : Auth) :
    Commit L st = (st1, none) ↔
      L.commitErr st.acct = none ∧
      st1 = { st with committed := st.acct, calls := st.calls ++ [Call.commit] } := by
  cases h : L.commitErr st.acct <;> simp [Commit, h, eq_comm]

theorem fShowImport_ok_iff (L : Lib) (st st1 : Auth) (i : Import) :
    fShowImport L st i = (st1, Res.ok ()) ↔
      ∃ p, showImport L i = Except.ok p ∧ L.writeErr = none ∧
        st1 = { st with out := st.out ++ [p] } := by
  unfold fShowImport
  cases h : showImport L i <;> cases h2 : L.writeErr <;> simp [eq_comm]

theorem fShowImport_ne_panic (L : Lib) (st : Auth) (i : Import) :
    (fShowImport L st i).2 ≠ Res.panic := by
  unfold fShowImport
  cases showImport L i <;> cases L.writeErr <;> simp

theorem importAddAction_ok (L : Lib) (c : authAccountCommand) (st st' : Auth)
    (h : importAddAction L c st = (st', Res.ok ())) :
    st'.acct = st.acct.withImport (addedImport c) ∧ st'.committed = st'.acct ∧
    st'.calls = st.calls ++ [Call.addWithConfig (addedImport c), Call.commit] := by
  obtain ⟨isService, importName, importAccount, subject, localSubject, activationToken,
    share, shareIsSet, allowTrace, allowTraceIsSet, force⟩ := c
  unfold importAddAction at h
  by_cases hl : localSubject = "" <;> by_cases ht : activationToken = "" <;>
    cases isService <;> cases allowTrace <;>
    simp only [hl, ht, if_true, if_false, Bool.false_eq_true, Bool.and_self, Bool.not_false,
      Bool.not_true, Bool.and_true, Bool.and_false, ne_eq, not_true_eq_false,
      not_false_eq_true, Import.asStreamImport] at h <;>
    repeat' split at h
  all_goals (try (exact absurd h (by simp)))
  all_goals simp_all [NewStreamImport_ok_iff, NewServiceImport_ok_iff, SetAccount_ok_iff,
    SetLocalSubject_ok_iff, SetToken_ok_iff, SetShareConnectionInfo_ok_iff,
    ServicesAddWithConfig_ok_iff, StreamsAddWithConfig_ok_iff, Commit_ok_iff,
    fShowImport_ok_iff, addedImport, Account.withImport, Import.asStreamImport]
  all_goals (obtain ⟨p, -, -, rfl⟩ := h; simp)


/-! ## Add -/

/-- The account after `AddWithConfig`, read as the two lists the CLI sees. -/
theorem withImport_lists (a : Account) (i : Import) :
    (a.withImport i).StreamsList ++ (a.withImport i).ServicesList =
      match i.kind with
      | Kind.stream => a.StreamsList ++ [i] ++ a.ServicesList
      | Kind.service => a.StreamsList ++ a.ServicesList ++ [i] := by
  obtain ⟨k, d⟩ := i
  cases k <;> simp [Account.withImport, Account.StreamsList, Account.ServicesList]

/-- C9: every `importAddAction` that succeeds without an explicit local subject
(`localSubject = ""`), for a service import as well as a stream import, stages
and commits an import whose `LocalSubject()` and `Subject()` both are the
subject given on the command line. -/
theorem importAddAction_default_local_subject (L : Lib) (c : authAccountCommand)
    (st st' : Auth) (h : importAddAction L c st = (st', Res.ok ()))
    (hl : c.localSubject = "") :
    ∃ i : Import, st'.acct = st.acct.withImport i ∧ st'.committed = st'.acct ∧
      i.kind = (if c.isService then Kind.service else Kind.stream) ∧
      i.LocalSubject = c.subject ∧ i.Subject = c.subject ∧
      i.LocalSubject = i.Subject := by
  obtain ⟨h1, h2, -⟩ := importAddAction_ok L c st st' h
  refine ⟨addedImport c, h1, h2, rfl, ?_, rfl, ?_⟩ <;>
    simp [addedImport, Import.LocalSubject, Import.Subject, hl]

/-- C9 at a concrete input: a stream import and a service import added without
a local subject. -/
theorem importAddAction_default_local_subject_witness :
    (∃ i : Import,
      (importAddAction okLib ordersCmd (freshAuth emptyAccount)).1.acct =
        emptyAccount.withImport i ∧
      (importAddAction okLib ordersCmd (freshAuth emptyAccount)).1.committed =
        (importAddAction okLib ordersCmd (freshAuth emptyAccount)).1.acct ∧
      i.kind = Kind.stream ∧
      i.LocalSubject = "orders.>" ∧ i.Subject = "orders.>" ∧ i.LocalSubject = i.Subject) ∧
    (∃ i : Import,
      (importAddAction okLib billingCmd (freshAuth emptyAccount)).1.acct =
        emptyAccount.withImport i ∧
      (importAddAction okLib billingCmd (freshAuth emptyAccount)).1.committed =
        (importAddAction okLib billingCmd (freshAuth emptyAccount)).1.acct ∧
      i.kind = Kind.service ∧
      i.LocalSubject = "billing.req" ∧ i.Subject = "billing.req" ∧
      i.LocalSubject = i.Subject) :=
  ⟨importAddAction_default_local_subject okLib ordersCmd (freshAuth emptyAccount) _
      (by decide) (by decide),
   importAddAction_default_local_subject okLib billingCmd (freshAuth emptyAccount) _
      (by decide) (by decide)⟩

/-- Whatever `importAddAction` returns, either `AddWithConfig` accepted what
lines 19-60 built, or the staged and the committed account are what they were
before the call. -/
theorem importAddAction_accepted_or_unchanged (L : Lib) (c : authAccountCommand)
    (st : Auth) :
    L.addWithConfigErr st.acct (addedImport c) = none ∨
    ((importAddAction L c st).1.acct = st.acct ∧
      (importAddAction L c st).1.committed = st.committed) := by
  obtain ⟨isService, importName, importAccount, subject, localSubject, activationToken,
    share, shareIsSet, allowTrace, allowTraceIsSet, force⟩ := c
  cases hadd : L.addWithConfigErr st.acct (addedImport ⟨isService, importName, importAccount,
      subject, localSubject, activationToken, share, shareIsSet, allowTrace, allowTraceIsSet,
      force⟩) with
  | none => exact Or.inl rfl
  | some e0 =>
    right
    unfold importAddAction
    by_cases hl : localSubject = "" <;> by_cases ht : activationToken = "" <;>
      cases isService <;> cases allowTrace <;>
      simp only [hl, ht, if_true, if_false, Bool.false_eq_true, Bool.and_self, Bool.not_false,
        Bool.not_true, Bool.and_true, Bool.and_false, ne_eq, not_true_eq_false,
        not_false_eq_true, Import.asStreamImport] <;>
      repeat' split
    all_goals (try (exact ⟨rfl, rfl⟩))
    all_goals simp_all [NewStreamImport_ok_iff, NewServiceImport_ok_iff, SetAccount_ok_iff,
      SetLocalSubject_ok_iff, SetToken_ok_iff, SetShareConnectionInfo_ok_iff,
      addedImport, Import.asStreamImport, ServicesAddWithConfig, StreamsAddWithConfig]
    all_goals (rename_i heq; obtain ⟨rfl, -⟩ := heq; exact ⟨rfl, rfl⟩)

/-- The library `okLib` rejects a stream import that shares connection info. -/
theorem okLib_rejectsSharingStream : okLib.rejectsSharingStream := by
  intro a i hk hsh
  simp [okLib, hk, hsh]

/-- C2, what the code does: with `allowTrace = true` and `isService = false`,
line 56 calls `SetShareConnectionInfo(true)` where `SetAllowTracing(true)` is
meant, so the stream import handed to `AddWithConfig` shares connection info.
The library rejects such an import, so no `importAddAction` that asks for
tracing on a stream import succeeds, whatever the other flags and the state are:
the call does not return success, and the staged and the committed account are
what they were before it. Tracing is never enabled. -/
theorem importAddAction_traced_stream_fails (L : Lib) (c : authAccountCommand) (st : Auth)
    (hrej : L.rejectsSharingStream) (ha : c.allowTrace = true) (hs : c.isService = false) :
    (importAddAction L c st).2 ≠ Res.ok () ∧
    (importAddAction L c st).1.acct = st.acct ∧
    (importAddAction L c st).1.committed = st.committed := by
  have hk : (addedImport c).kind = Kind.stream := by simp [addedImport, hs]
  have hsh : (addedImport c).data.share = true := by simp [addedImport, ha, hs]
  have hno : L.addWithConfigErr st.acct (addedImport c) ≠ none :=
    hrej st.acct (addedImport c) hk hsh
  rcases importAddAction_accepted_or_unchanged L c st with h1 | h1
  · exact absurd h1 hno
  · refine ⟨?_, h1.1, h1.2⟩
    intro h
    have h2 := (importAddAction_ok L c st (importAddAction L c st).1 (Prod.ext rfl h)).1
    rw [h1.1] at h2
    obtain ⟨isService, importName, importAccount, subject, localSubject, activationToken,
      share, shareIsSet, allowTrace, allowTraceIsSet, force⟩ := c
    simp only at hs
    subst hs
    have h3 := congrArg (fun a => a.streams.length) h2
    simp [Account.withImport, addedImport] at h3

/-- C2 at a concrete input: the scenario command with `--allow-trace`, on an
account without imports, against `okLib`. -/
theorem importAddAction_traced_stream_fails_witness :
    okLib.rejectsSharingStream ∧ traceCmd.allowTrace = true ∧ traceCmd.isService = false ∧
    (importAddAction okLib traceCmd (freshAuth emptyAccount)).2 ≠ Res.ok () ∧
    (importAddAction okLib traceCmd (freshAuth emptyAccount)).1.acct = emptyAccount ∧
    (importAddAction okLib traceCmd (freshAuth emptyAccount)).1.committed = emptyAccount :=
  ⟨okLib_rejectsSharingStream, rfl, rfl,
   importAddAction_traced_stream_fails okLib traceCmd (freshAuth emptyAccount)
     (by intro a i hk hsh; simp [okLib, hk, hsh]) rfl rfl⟩

/-- The run of the scenario command with `--allow-trace`, in full: the only call
the account receives is the `AddWithConfig` of a stream import that shares
connection info (although `share = false`) and has `AllowTracing() = false`; the
library rejects it, the action returns that error, and nothing is added,
committed or printed. -/
theorem importAddAction_traced_orders_run :
    importAddAction okLib traceCmd (freshAuth emptyAccount) =
      ({ freshAuth emptyAccount with
          calls := [Call.addWithConfig
            ⟨Kind.stream, ⟨"A", "A", "orders.>", "orders.>", "", true, false⟩⟩] },
       Res.error "sharing information is only valid for services") := by
  decide

/-- No `importAddAction` enables tracing, whatever the library accepts: were a
call to succeed, the import it stages would have `AllowTracing() = false`, and a
stream import added with `allowTrace = true` would share connection info. -/
theorem importAddAction_never_traces (L : Lib) (c : authAccountCommand) (st st' : Auth)
    (h : importAddAction L c st = (st', Res.ok ())) :
    ∃ i : Import, st'.acct = st.acct.withImport i ∧ i.AllowTracing = false ∧
      (c.allowTrace = true → c.isService = false → i.IsShareConnectionInfo = true) := by
  obtain ⟨h1, -, -⟩ := importAddAction_ok L c st st' h
  refine ⟨addedImport c, h1, rfl, ?_⟩
  intro ha hs
  simp [addedImport, Import.IsShareConnectionInfo, ha, hs]

/-- C10: `importAddAction` never panics: whatever the flags, the state and the
decisions of the library, neither type assertion to `ab.StreamImport` fails, so
the action returns success or an error. With `isService = true` the flag
`allowTrace` changes nothing: the tracing request is skipped, without an error. -/
theorem importAddAction_no_panic (L : Lib) (c : authAccountCommand) (st : Auth) :
    (importAddAction L c st).2 ≠ Res.panic ∧
    ((importAddAction L c st).2 = Res.ok () ∨
      ∃ msg, (importAddAction L c st).2 = Res.error msg) ∧
    importAddAction L { c with isService := true, allowTrace := true } st =
      importAddAction L { c with isService := true, allowTrace := false } st := by
  have key : (importAddAction L c st).2 ≠ Res.panic := by
    obtain ⟨isService, importName, importAccount, subject, localSubject, activationToken,
      share, shareIsSet, allowTrace, allowTraceIsSet, force⟩ := c
    unfold importAddAction
    by_cases hl : localSubject = "" <;> by_cases ht : activationToken = "" <;>
      cases isService <;> cases allowTrace <;>
      simp only [hl, ht, if_true, if_false, Bool.false_eq_true, Bool.and_self, Bool.not_false,
        Bool.not_true, Bool.and_true, Bool.and_false, ne_eq, not_true_eq_false,
        not_false_eq_true] <;>
      repeat' split
    all_goals (try (exact fShowImport_ne_panic _ _ _))
    all_goals simp_all [NewStreamImport_ok_iff, NewServiceImport_ok_iff, SetAccount_ok_iff,
      SetLocalSubject_ok_iff, SetToken_ok_iff, SetShareConnectionInfo_ok_iff,
      Import.asStreamImport]
  refine ⟨key, ?_, ?_⟩
  · cases hr : (importAddAction L c st).2 with
    | ok u => exact Or.inl rfl
    | error msg => exact Or.inr ⟨msg, rfl⟩
    | panic => exact absurd hr key
  · simp [importAddAction]

/-! ## Find -/

/-- The two loops of `findImport` are one scan of the stream imports followed by
the service imports. -/
theorem findImport_eq_find (a : Account) (s : String) :
    findImport a s =
      (a.StreamsList ++ a.ServicesList).find? (fun imp => imp.LocalSubject == s) := by
  unfold findImport
  rw [List.find?_append]
  cases List.find? (fun imp => imp.LocalSubject == s) a.StreamsList <;> simp

/-- C1: `findImport(account, s)` scans the stream imports and then the
service imports, each in list order, and returns the first import whose `LocalSubject()`
is exactly `s`: it returns nil exactly when no import of either kind has local
subject `s`; what it returns has local subject `s` and nothing scanned before it
has; and when the local subjects of the account are pairwise distinct, it
returns the import with local subject `s`, whatever its kind. -/
theorem findImport_first_match (account : Account) (s : String) :
    (findImport account s = none ↔
      ∀ i ∈ account.StreamsList ++ account.ServicesList, i.LocalSubject ≠ s) ∧
    (∀ i, findImport account s = some i →
      i.LocalSubject = s ∧
      ∃ pre post, account.StreamsList ++ account.ServicesList = pre ++ i :: post ∧
        ∀ j ∈ pre, j.LocalSubject ≠ s) ∧
    ((account.StreamsList ++ account.ServicesList).Pairwise
        (fun a b => a.LocalSubject ≠ b.LocalSubject) →
      ∀ i ∈ account.StreamsList ++ account.ServicesList, i.LocalSubject = s →
        findImport account s = some i) := by
  rw [findImport_eq_find]
  refine ⟨?_, ?_, ?_⟩
  · rw [List.find?_eq_none]
    exact forall₂_congr (fun i _ => by simp)
  · intro i hi
    rw [List.find?_eq_some] at hi
    obtain ⟨hp, pre, post, hsplit, hpre⟩ := hi
    refine ⟨by simpa using hp, pre, post, hsplit, ?_⟩
    intro j hj
    simpa using hpre j hj
  · intro hpw i hi hs
    rw [List.find?_eq_some]
    obtain ⟨pre, post, hsplit⟩ := List.append_of_mem hi
    refine ⟨by simpa using hs, pre, post, hsplit, ?_⟩
    intro j hj
    rw [hsplit, List.pairwise_append] at hpw
    have hne := hpw.2.2 j hj i (List.mem_cons_self i post)
    simpa [hs] using hne

/-- C1 at a concrete input: with pairwise distinct local subjects, the lookup of
the local subject of the service import returns that service import. -/
theorem findImport_first_match_witness :
    findImport mixedAccount "local.billing" =
      some ⟨Kind.service, ⟨"billing", "B", "billing.req", "local.billing", "", false, false⟩⟩ :=
  (findImport_first_match mixedAccount "local.billing").2.2 (by decide) _ (by decide)
    (by decide)

/-- After `AddWithConfig` has appended `i`, `findImport` on the local subject of
`i` returns `i`, provided that nothing scanned before it has that local subject:
no stream import already in the account and, when `i` is a service import, no
service import already in it either. -/
theorem findImport_withImport (a : Account) (i : Import)
    (hfresh : ∀ x ∈ (if i.kind = Kind.service then a.StreamsList ++ a.ServicesList
      else a.StreamsList), x.LocalSubject ≠ i.LocalSubject) :
    findImport (a.withImport i) i.LocalSubject = some i := by
  rw [findImport_eq_find, withImport_lists]
  obtain ⟨k, d⟩ := i
  cases k with
  | stream =>
    have h1 : List.find? (fun imp => imp.LocalSubject == Import.LocalSubject ⟨Kind.stream, d⟩)
        a.StreamsList = none := by
      rw [List.find?_eq_none]
      intro x hx
      simpa using hfresh x (by simpa using hx)
    simp [List.find?_append, h1]
  | service =>
    have h1 : List.find? (fun imp => imp.LocalSubject == Import.LocalSubject ⟨Kind.service, d⟩)
        (a.StreamsList ++ a.ServicesList) = none := by
      rw [List.find?_eq_none]
      intro x hx
      simpa using hfresh x (by simpa using hx)
    show List.find? _ ((a.StreamsList ++ a.ServicesList) ++ [_]) = _
    rw [List.find?_append, h1]
    simp

/-- C3 as amended: when no import that `findImport` scans before the new one
already has the local subject `l` of the import to add (no stream import of the
account and, when a service import is added, no service import either), every
`importAddAction` that succeeds stages an import `i` with local subject `l`, of
the requested kind, and a following `findImport(account, l)` returns `i` itself,
on the staged account and on the committed one. -/
theorem importAddAction_find_roundtrip (L : Lib) (c : authAccountCommand) (st st' : Auth)
    (h : importAddAction L c st = (st', Res.ok ()))
    (hfresh : ∀ x ∈ (if c.isService then st.acct.StreamsList ++ st.acct.ServicesList
      else st.acct.StreamsList),
      x.LocalSubject ≠ (if c.localSubject = "" then c.subject else c.localSubject)) :
    ∃ i : Import, st'.acct = st.acct.withImport i ∧ st'.committed = st'.acct ∧
      i.kind = (if c.isService then Kind.service else Kind.stream) ∧
      i.LocalSubject = (if c.localSubject = "" then c.subject else c.localSubject) ∧
      findImport st'.acct i.LocalSubject = some i ∧
      findImport st'.committed i.LocalSubject = some i := by
  obtain ⟨h1, h2, -⟩ := importAddAction_ok L c st st' h
  have hf : findImport st'.acct (addedImport c).LocalSubject = some (addedImport c) := by
    rw [h1]
    apply findImport_withImport st.acct (addedImport c)
    cases hs : c.isService <;> simpa [addedImport, hs, Import.LocalSubject] using hfresh
  exact ⟨addedImport c, h1, h2, rfl, rfl, hf, by rw [h2]; exact hf⟩

/-- C3 as amended, at a concrete input: a service import added to an account
that has a stream import and a service import under other local subjects. -/
theorem importAddAction_find_roundtrip_witness :
    ∃ i : Import,
      (importAddAction okLib billing2Cmd (freshAuth mixedAccount)).1.acct =
        mixedAccount.withImport i ∧
      (importAddAction okLib billing2Cmd (freshAuth mixedAccount)).1.committed =
        (importAddAction okLib billing2Cmd (freshAuth mixedAccount)).1.acct ∧
      i.kind = Kind.service ∧
      i.LocalSubject = "local.billing2" ∧
      findImport (importAddAction okLib billing2Cmd (freshAuth mixedAccount)).1.acct
        i.LocalSubject = some i ∧
      findImport (importAddAction okLib billing2Cmd (freshAuth mixedAccount)).1.committed
        i.LocalSubject = some i :=
  importAddAction_find_roundtrip okLib billing2Cmd (freshAuth mixedAccount) _ (by decide)
    (by decide)

/-- The amended round trip also covers a stream import added under a local
subject that only a service import of the account has. -/
theorem findImport_after_add_stream_first :
    findImport (importAddAction okLib ordersOverBillingCmd (freshAuth mixedAccount)).1.acct
      "local.billing" =
      some ⟨Kind.stream, ⟨"A", "A", "orders.>", "local.billing", "", false, false⟩⟩ := by
  decide

/-- C3 as stated fails: `importAddAction` succeeds and stages a service import
with local subject `local.orders`, and the following `findImport` on that local
subject returns the stream import that the account already had under it. -/
theorem importAddAction_find_shadowed :
    (importAddAction okLib shadowedCmd (freshAuth mixedAccount)).2 = Res.ok () ∧
    (importAddAction okLib shadowedCmd (freshAuth mixedAccount)).1.acct =
      mixedAccount.withImport
        ⟨Kind.service, ⟨"billing", "A", "billing.req", "local.orders", "", false, false⟩⟩ ∧
    findImport (importAddAction okLib shadowedCmd (freshAuth mixedAccount)).1.acct
      "local.orders" =
      some ⟨Kind.stream, ⟨"orders", "A", "orders.>", "local.orders", "", false, false⟩⟩ ∧
    findImport (importAddAction okLib shadowedCmd (freshAuth mixedAccount)).1.acct
      "local.orders" ≠
      some ⟨Kind.service, ⟨"billing", "A", "billing.req", "local.orders", "", false, false⟩⟩ := by
  decide

/-! ## Edit -/

/-- C4: when `findImport` returns a service import, `importEditAction` with
`allowTraceIsSet = true` returns the error `service imports cannot allow tracing`,
whatever `allowTrace`, `shareIsSet`, `share` and `localSubject` are, and the state
after the call is the state before it: both collections and every attribute of
every import are the same, nothing is committed, and the account has received no
setter call and no `Commit` (the list of calls is unchanged). -/
theorem importEditAction_service_trace_rejected (L : Lib) (c : authAccountCommand)
    (st : Auth) (i : Import) (hsel : L.selectAccountErr = none)
    (hf : findImport st.acct c.subject = some i) (hk : i.kind = Kind.service)
    (ht : c.allowTraceIsSet = true) :
    importEditAction L c st = (st, Res.error "service imports cannot allow tracing") := by
  unfold importEditAction
  simp [hsel, hf, ht, Import.asStreamImport, hk]

/-- C4 at a concrete input. -/
theorem importEditAction_service_trace_rejected_witness :
    importEditAction okLib editBillingCmd (freshAuth mixedAccount) =
      (freshAuth mixedAccount, Res.error "service imports cannot allow tracing") :=
  importEditAction_service_trace_rejected okLib editBillingCmd (freshAuth mixedAccount)
    ⟨Kind.service, ⟨"billing", "B", "billing.req", "local.billing", "", false, false⟩⟩
    (by decide) (by decide) (by decide) (by decide)

/-! ## Remove -/

/-- C5: when `findImport` returns an import, `importRmAction` with
`force = false` and a confirmation answered no returns success and leaves the
state as it was: the stream and the service collection are unchanged and the
account has received neither `Delete` nor `Commit`. -/
theorem importRmAction_declined (L : Lib) (c : authAccountCommand) (st : Auth)
    (i : Import) (hsel : L.selectAccountErr = none)
    (hf : findImport st.acct c.subject = some i) (hforce : c.force = false)
    (hno : L.askConfirmation ("Really remove the " ++ i.LocalSubject ++ " Import") false =
      Except.ok false) :
    importRmAction L c st = (st, Res.ok ()) := by
  unfold importRmAction
  simp [hsel, hf, hforce, hno]

/-- C5 at a concrete input: the prompt of `okLib` is answered no. -/
theorem importRmAction_declined_witness :
    importRmAction okLib rmOrdersCmd (freshAuth mixedAccount) =
      (freshAuth mixedAccount, Res.ok ()) :=
  importRmAction_declined okLib rmOrdersCmd (freshAuth mixedAccount)
    ⟨Kind.stream, ⟨"orders", "A", "orders.>", "local.orders", "", false, false⟩⟩
    (by decide) (by decide) (by decide) rfl

/-- C6, the code at the failing input: on an account whose imports have pairwise
distinct local subjects, `importRmAction` with `force = true` on the local
subject `local.orders` of a stream import whose remote subject is `orders.>`
returns success after one `Delete("local.orders")` on the stream collection and
one `Commit`, and the account still has the import: `Delete` is given the local
subject, the collection is keyed by the remote subject, so nothing is deleted. -/
theorem importRmAction_force_keeps_import :
    (mixedAccount.StreamsList ++ mixedAccount.ServicesList).Pairwise
      (fun a b => a.LocalSubject ≠ b.LocalSubject) ∧
    findImport mixedAccount "local.orders" =
      some ⟨Kind.stream, ⟨"orders", "A", "orders.>", "local.orders", "", false, false⟩⟩ ∧
    (importRmAction okLib rmOrdersForceCmd (freshAuth mixedAccount)).2 = Res.ok () ∧
    (importRmAction okLib rmOrdersForceCmd (freshAuth mixedAccount)).1.calls =
      [Call.delete Kind.stream "local.orders", Call.commit] ∧
    (importRmAction okLib rmOrdersForceCmd (freshAuth mixedAccount)).1.acct = mixedAccount ∧
    (importRmAction okLib rmOrdersForceCmd (freshAuth mixedAccount)).1.committed =
      mixedAccount ∧
    findImport (importRmAction okLib rmOrdersForceCmd (freshAuth mixedAccount)).1.acct
      "local.orders" =
      some ⟨Kind.stream, ⟨"orders", "A", "orders.>", "local.orders", "", false, false⟩⟩ := by
  decide

/-- The same defect on `chainedAccount`: `import rm b.> --force` finds the
first import (local subject `b.>`) and deletes the second one (remote subject
`b.>`); the import that was asked for is still there. -/
theorem importRmAction_force_removes_other :
    findImport chainedAccount "b.>" =
      some ⟨Kind.stream, ⟨"first", "A", "a.>", "b.>", "", false, false⟩⟩ ∧
    (importRmAction okLib { rmOrdersForceCmd with subject := "b.>" }
      (freshAuth chainedAccount)).2 = Res.ok () ∧
    (importRmAction okLib { rmOrdersForceCmd with subject := "b.>" }
      (freshAuth chainedAccount)).1.acct.streams =
      [⟨"first", "A", "a.>", "b.>", "", false, false⟩] := by
  decide

/-- When the import that `findImport` returns has its local subject as remote
subject, and no entry before it in its collection has that remote subject, a
forced `importRmAction` that succeeds deletes exactly the first entry of that
collection with local subject `c.subject`, and commits. -/
theorem importRmAction_force_same_subject (L : Lib) (c : authAccountCommand) (st st' : Auth)
    (i : Import) (hf : findImport st.acct c.subject = some i) (hforce : c.force = true)
    (hkey : ∀ d ∈ st.acct.collection i.kind,
      (d.subject == c.subject) = (d.localSubject == c.subject))
    (h : importRmAction L c st = (st', Res.ok ())) :
    st'.committed = st'.acct ∧
    st'.acct.collection i.kind =
      (st.acct.collection i.kind).eraseP (fun d => d.localSubject == c.subject) ∧
    (∀ k, k ≠ i.kind → st'.acct.collection k = st.acct.collection k) := by
  have hP : (st.acct.collection i.kind).eraseP (fun d => d.subject == c.subject) =
      (st.acct.collection i.kind).eraseP (fun d => d.localSubject == c.subject) := by
    generalize st.acct.collection i.kind = l at hkey
    induction l with
    | nil => rfl
    | cons d ds ih =>
      have hd := hkey d (List.mem_cons_self d ds)
      have ih2 := ih (fun e he => hkey e (List.mem_cons_of_mem d he))
      simp only [List.eraseP_cons, hd, ih2]
  unfold importRmAction at h
  obtain ⟨k, d⟩ := i
  cases hsel : L.selectAccountErr with
  | some e => simp [hsel] at h
  | none =>
    cases k with
    | stream =>
      cases hd : L.deleteErr st.acct Kind.stream c.subject with
      | some e => simp [hsel, hf, hforce, StreamsDelete, hd] at h
      | none =>
        cases hc : L.commitErr { st.acct with
            streams := st.acct.streams.eraseP (fun d => d.subject == c.subject) } with
        | some e => simp [hsel, hf, hforce, StreamsDelete, hd, Commit, hc] at h
        | none =>
          simp [hsel, hf, hforce, StreamsDelete, hd, Commit, hc] at h
          subst h
          refine ⟨rfl, ?_, ?_⟩
          · simpa [Account.collection] using hP
          · intro k hk
            cases k
            · exact absurd rfl hk
            · rfl
    | service =>
      cases hd : L.deleteErr st.acct Kind.service c.subject with
      | some e => simp [hsel, hf, hforce, ServicesDelete, hd] at h
      | none =>
        cases hc : L.commitErr { st.acct with
            services := st.acct.services.eraseP (fun d => d.subject == c.subject) } with
        | some e => simp [hsel, hf, hforce, ServicesDelete, hd, Commit, hc] at h
        | none =>
          simp [hsel, hf, hforce, ServicesDelete, hd, Commit, hc] at h
          subst h
          refine ⟨rfl, ?_, ?_⟩
          · simpa [Account.collection] using hP
          · intro k hk
            cases k
            · rfl
            · exact absurd rfl hk

/-! ## List -/

/-- The sorted sequence is a rearrangement of the stream imports followed by the
service imports. -/
theorem importsBySubject_perm (a : Account) :
    (importsBySubject a).Perm (a.StreamsList ++ a.ServicesList) :=
  List.perm_insertionSort _ _

/-- The sorted sequence is in non-decreasing order of `Subject()`. -/
theorem importsBySubject_sorted (a : Account) :
    (importsBySubject a).Pairwise (fun x y => x.Subject ≤ y.Subject) := by
  haveI : IsTotal Import (fun x y => lessBySubject y x = false) :=
    ⟨fun x y => by
      simp only [lessBySubject, decide_eq_false_iff_not, not_lt]
      exact le_total x.Subject y.Subject⟩
  haveI : IsTrans Import (fun x y => lessBySubject y x = false) :=
    ⟨fun x y z hxy hyz => by
      simp only [lessBySubject, decide_eq_false_iff_not, not_lt] at hxy hyz ⊢
      exact le_trans hxy hyz⟩
  have hs := List.sorted_insertionSort (fun x y => lessBySubject y x = false)
    (a.StreamsList ++ a.ServicesList)
  refine List.Pairwise.imp ?_ hs
  intro x y hxy
  simpa [lessBySubject] using hxy

/-- C7: for every account, the sequence that `importLsAction` renders (the result
of `importsBySubject`) is a permutation of the stream imports followed by the
service imports, in non-decreasing order of `Subject()`; each element gives one
table row, and the number of rows is the number of stream imports plus the
number of service imports. -/
theorem importLsAction_rows (L : Lib) (st : Auth) (hsel : L.selectAccountErr = none) :
    (importsBySubject st.acct).Perm (st.acct.StreamsList ++ st.acct.ServicesList) ∧
    (importsBySubject st.acct).Pairwise (fun x y => x.Subject ≤ y.Subject) ∧
    ∃ p : Printed,
      importLsAction L st = ({ st with out := st.out ++ [p] }, Res.ok ()) ∧
      p.rows = (importsBySubject st.acct).map importRow ∧
      p.rows.length = st.acct.StreamsList.length + st.acct.ServicesList.length := by
  refine ⟨importsBySubject_perm st.acct, importsBySubject_sorted st.acct, ?_⟩
  have hlen : (importsBySubject st.acct).length =
      st.acct.StreamsList.length + st.acct.ServicesList.length := by
    rw [(importsBySubject_perm st.acct).length_eq, List.length_append]
  unfold importLsAction
  simp only [hsel]
  split
  · rename_i hempty
    refine ⟨Printed.line "No Imports defined", rfl, ?_, ?_⟩
    · have h0 : (importsBySubject st.acct).length = 0 := by omega
      rw [List.length_eq_zero] at h0
      simp [Printed.rows, h0]
    · simp [Printed.rows]
      omega
  · refine ⟨_, rfl, rfl, ?_⟩
    simp [Printed.rows, hlen]

/-- C7 at a concrete input: an account with one stream import and one
service import. -/
theorem importLsAction_rows_witness :
    (importsBySubject mixedAccount).Perm
      (mixedAccount.StreamsList ++ mixedAccount.ServicesList) ∧
    (importsBySubject mixedAccount).Pairwise (fun x y => x.Subject ≤ y.Subject) ∧
    ∃ p : Printed,
      importLsAction okLib (freshAuth mixedAccount) =
        ({ freshAuth mixedAccount with out := [] ++ [p] }, Res.ok ()) ∧
      p.rows = (importsBySubject mixedAccount).map importRow ∧
      p.rows.length = 1 + 1 :=
  importLsAction_rows okLib (freshAuth mixedAccount) rfl

/-- The rows of `importLsAction` on `mixedAccount`: the service import, whose
remote subject `billing.req` sorts before `orders.>`, comes first. -/
theorem importLsAction_mixed_rows :
    (importsBySubject mixedAccount).map importRow =
      [[Cell.str "billing", Cell.str "Service", Cell.str "local.billing",
        Cell.str "billing.req", Cell.str "", Cell.bool false],
       [Cell.str "orders", Cell.str "Stream", Cell.str "local.orders",
        Cell.str "orders.>", Cell.bool false, Cell.bool false]] := by
  have hlt : lessBySubject
      ⟨Kind.service, ⟨"billing", "B", "billing.req", "local.billing", "", false, false⟩⟩
      ⟨Kind.stream, ⟨"orders", "A", "orders.>", "local.orders", "", false, false⟩⟩ = true := by
    simp only [lessBySubject, Import.Subject, decide_eq_true_eq]
    rw [String.lt_iff_toList_lt]
    decide
  simp only [importsBySubject, sortSlice, mixedAccount, Account.StreamsList,
    Account.ServicesList, List.map, List.cons_append, List.nil_append, List.insertionSort,
    List.orderedInsert, hlt]
  decide

/-- C8, the code at the failing input: the scenario `import add orders A orders.>`
(stream import, no local subject, no sharing, no tracing) on an account
without imports succeeds, and `importLsAction` then prints one table with one row, whose
kind is Stream, whose local and remote subject are `orders.>` and whose sharing
is false, but whose name is `A`, the source account, and not `orders`. -/
theorem importAddAction_ls_orders_row :
    (importAddAction okLib ordersCmd (freshAuth emptyAccount)).2 = Res.ok () ∧
    (importLsAction okLib (importAddAction okLib ordersCmd (freshAuth emptyAccount)).1).2 =
      Res.ok () ∧
    (importLsAction okLib
      (importAddAction okLib ordersCmd (freshAuth emptyAccount)).1).1.out.getLast? =
      some (Printed.table "Imports for account acme" importHeaders
        [[Cell.str "A", Cell.str "Stream", Cell.str "orders.>", Cell.str "orders.>",
          Cell.bool false, Cell.bool false]]) ∧
    Cell.str "A" ≠ Cell.str "orders" := by
  decide

/-- For every name `n`, source account `a` and remote subject `r`: after a
successful add of a stream import with these values, without local subject,
sharing or tracing, on an account without imports, the sorted sequence that
`importLsAction` renders gives one row, and its name cell is `a`. -/
theorem importAddAction_ls_row (L : Lib) (c : authAccountCommand) (st st' : Auth)
    (h : importAddAction L c st = (st', Res.ok ()))
    (hs : c.isService = false) (hl : c.localSubject = "") (hsh : c.share = false)
    (ht : c.allowTrace = false) (h1 : st.acct.streams = []) (h2 : st.acct.services = []) :
    (importsBySubject st'.acct).map importRow =
      [[Cell.str c.importAccount, Cell.str "Stream", Cell.str c.subject, Cell.str c.subject,
        Cell.bool false, Cell.bool false]] := by
  obtain ⟨ha, -, -⟩ := importAddAction_ok L c st st' h
  rw [ha]
  simp [importsBySubject, sortSlice, Account.withImport, addedImport, hs, hl, hsh, ht, h1, h2,
    Account.StreamsList, Account.ServicesList, importRow, Import.LocalSubject, Import.Subject,
    Import.Name, Import.AllowTracing, Import.IsShareConnectionInfo]

end NatsCli
